import Mathlib

/-!
Shallow embedding of pkg/asset/manifests/cloudproviderconfig.go from the
Openshift-installer repository, together with proofs of the specified
properties of the CloudProviderConfig asset and its Generate method.

External collaborators (the Azure session fetch, the IBM Cloud account-ID
lookup, the per-platform delegate config generators, and the JSON/YAML
serializers) live outside the analysed file; they are modelled as injected
values and functions carried by an environment record, so that Generate
itself is the pure dispatch-and-derivation algorithm of the source.
Go errors are modelled as strings; errors.Wrap(err, msg) produces the
message "msg: err".
-/

namespace CloudProviderCfg

/-- The fixed data keys of the generated config map (source lines 40-44). -/
def cloudProviderConfigDataKey : String := "config"

def cloudProviderConfigCABundleDataKey : String := "ca-bundle.pem"

def cloudProviderEndpointsKey : String := "endpoints"

/-- filepath.Join(manifestDir, "cloud-provider-config.yaml") with
manifestDir = "manifests" (source line 37). -/
def cloudProviderConfigFileName : String := "manifests/cloud-provider-config.yaml"

/-- The platform name constants of the pkg/types packages, as matched by the
switch at source line 91. -/
def libvirtName : String := "libvirt"

def noneName : String := "none"

def baremetalName : String := "baremetal"

def ovirtName : String := "ovirt"

def awsName : String := "aws"

def openstackName : String := "openstack"

def azureName : String := "azure"

def gcpName : String := "gcp"

def ibmcloudName : String := "ibmcloud"

def vsphereName : String := "vsphere"

def kubevirtName : String := "kubevirt"

/-- azuretypes.StackCloud, the alternate-cloud marker compared at line 152. -/
def azuretypesStackCloud : String := "AzureStackCloud"

/-- All names recognized by some arm of the switch; any other name reaches
the default arm. -/
def recognizedPlatformNames : List String :=
  [libvirtName, noneName, baremetalName, ovirtName, awsName, openstackName,
   azureName, gcpName, ibmcloudName, vsphereName, kubevirtName]

/-- corev1.ConfigMap, restricted to the fields the source sets (lines 79-89).
Data is the ordered key/value list built by the switch arms. -/
structure ConfigMap where
  APIVersion : String
  Kind : String
  Namespace : String
  Name : String
  Data : List (String × String)
deriving DecidableEq, Repr

/-- asset.File: a filename plus serialized bytes (modelled as a string). -/
structure File where
  Filename : String
  Data : String
deriving DecidableEq, Repr

/-- The CloudProviderConfig asset state: its two output slots. -/
structure CloudProviderConfig where
  ConfigMap : Option ConfigMap
  File : Option File
deriving DecidableEq, Repr

/-- A fresh asset: both output slots empty, as on the first generation pass. -/
def emptyCPC : CloudProviderConfig := { ConfigMap := none, File := none }

/-- Azure session credentials (session.Credentials, lines 136-139). -/
structure Credentials where
  SubscriptionID : String
  TenantID : String
  ClientID : String
  ClientSecret : String
deriving DecidableEq, Repr

/-- The Azure session obtained by installConfig.Azure.Session(); Environment
is the opaque endpoint/environment table, serialized by an injected
marshaller. -/
structure Session where
  Credentials : Credentials
  Environment : String
deriving DecidableEq, Repr

/-- installConfig.Config.Azure: the Azure platform settings read by the azure
arm.  ClusterResourceGroupName is the naming-convention method of the
platform type (defined outside the analysed file), modelled as an opaque
function of the infra ID; IsARO is likewise the result of the IsARO method. -/
structure AzureConfig where
  CloudName : String
  Region : String
  NetworkResourceGroupName : String
  VirtualNetwork : String
  ComputeSubnet : String
  ARMEndpoint : String
  IsARO : Bool
  ClusterResourceGroupName : String → String

/-- installConfig.Config.AWS fields read by the aws arm. -/
structure AWSConfig where
  Region : String
deriving DecidableEq, Repr

/-- installConfig.Config.GCP fields read by the gcp arm. -/
structure GCPConfig where
  ProjectID : String
  ComputeSubnet : String
deriving DecidableEq, Repr

/-- installConfig.Config.IBMCloud fields read by the ibmcloud arm. -/
structure IBMCloudConfig where
  Region : String
deriving DecidableEq, Repr

/-- installConfig.Config.Platform.VSphere fields read by the vsphere arm.
The remaining platform fields are consumed only by the external delegate,
which receives this record whole. -/
structure VSphereConfig where
  Folder : String
  Datacenter : String
deriving DecidableEq, Repr

/-- installConfig.Config.Platform.Kubevirt fields read by the kubevirt arm. -/
structure KubevirtConfig where
  Namespace : String
deriving DecidableEq, Repr

/-- The resolved install configuration: the active platform name (the value
of installConfig.Config.Platform.Name()) and the per-platform settings. -/
structure InstallConfigData where
  platformName : String
  AdditionalTrustBundle : String
  aws : AWSConfig
  azure : AzureConfig
  gcp : GCPConfig
  ibmcloud : IBMCloudConfig
  vsphere : VSphereConfig
  kubevirt : KubevirtConfig

/-- The azure.CloudProviderConfig payload built at source lines 131-146,
field for field. -/
structure AzureCPCPayload where
  CloudName : String
  ResourceGroupName : String
  GroupLocation : String
  ResourcePfx : String
  SubscriptionID : String
  TenantID : String
  AADClientID : String
  AADClientSecret : String
  NetworkResourceGroupName : String
  NetworkSecurityGroupName : String
  VirtualNetworkName : String
  SubnetName : String
  ResourceManagerEndpoint : String
  ARO : Bool
deriving DecidableEq, Repr

/-- The resolved dependencies of one generation pass plus the external
collaborators Generate calls.  Lookup results whose argument is fixed for
the pass (the session, the OpenStack delegate on the whole config, the
account ID) are carried as pre-resolved Except values; the remaining
delegates and serializers are injected functions.  c2sRegions models the
fixed restricted-region set awstypes.C2SRegions. -/
structure Env where
  config : InstallConfigData
  infraID : String
  azureMetadataCloudName : String
  azureSession : Except String Session
  azureJSONfn : AzureCPCPayload → Except String String
  openstackGen : Except String (String × String)
  jsonMarshalEnv : String → Except String String
  gcpCPCfn : String → String → String → Except String String
  ibmAccountID : Except String String
  ibmCPCfn : String → String → String → Except String String
  vsphereCPCfn : String → VSphereConfig → Except String String
  kubevirtJSONfn : String → String → Except String String
  yamlMarshal : ConfigMap → Except String String
  c2sRegions : List String

/-- errors.Wrap(err, msg): the wrapped message string. -/
def wrap (msg err : String) : String := msg ++ ": " ++ err

/-- Lookup of a key in the ordered data list (the Go map read). -/
def dataGet (d : List (String × String)) (k : String) : Option String :=
  match d.find? (fun kv => kv.fst == k) with
  | some kv => some kv.snd
  | none => none

/-- The derived Azure payload of source lines 118-146: the three derived
names with their default-naming policy, the resource-group names, and the
session credentials. -/
def azurePayload (env : Env) (session : Session) : AzureCPCPayload :=
  { CloudName := env.config.azure.CloudName
    ResourceGroupName := env.config.azure.ClusterResourceGroupName env.infraID
    GroupLocation := env.config.azure.Region
    ResourcePfx := env.infraID
    SubscriptionID := session.Credentials.SubscriptionID
    TenantID := session.Credentials.TenantID
    AADClientID := session.Credentials.ClientID
    AADClientSecret := session.Credentials.ClientSecret
    NetworkResourceGroupName :=
      if env.config.azure.NetworkResourceGroupName ≠ "" then
        env.config.azure.NetworkResourceGroupName
      else env.config.azure.ClusterResourceGroupName env.infraID
    NetworkSecurityGroupName := env.infraID ++ "-nsg"
    VirtualNetworkName :=
      if env.config.azure.VirtualNetwork ≠ "" then env.config.azure.VirtualNetwork
      else env.infraID ++ "-vnet"
    SubnetName :=
      if env.config.azure.ComputeSubnet ≠ "" then env.config.azure.ComputeSubnet
      else env.infraID ++ "-worker-subnet"
    ResourceManagerEndpoint := env.config.azure.ARMEndpoint
    ARO := env.config.azure.IsARO }

/-- The configmap skeleton built at source lines 79-89, before the switch
fills Data. -/
def baseConfigMap (data : List (String × String)) : ConfigMap :=
  { APIVersion := "v1"
    Kind := "ConfigMap"
    Namespace := "openshift-config"
    Name := "cloud-provider-config"
    Data := data }

/-- The common tail of Generate (source lines 206-215): marshal the configmap
to YAML and, only on success, store the configmap and the file in the
asset.  On marshal failure the asset is left untouched and the wrapped
error is returned. -/
def emitTail (env : Env) (cpc : CloudProviderConfig) (data : List (String × String)) :
    CloudProviderConfig × Option String :=
  match env.yamlMarshal (baseConfigMap data) with
  | .error e => (cpc, some (wrap "failed to create Cloud Provider Config manifest" e))
  | .ok cmBytes =>
    ({ ConfigMap := some (baseConfigMap data)
       File := some { Filename := cloudProviderConfigFileName, Data := cmBytes } }, none)

/-- Generate (source lines 74-216).  Returns the asset state after the pass
together with the returned error (none on success).  Every early return of
the source leaves the receiver untouched, which the embedding reflects by
returning cpc unchanged at exactly those points. -/
def generate (env : Env) (cpc : CloudProviderConfig) :
    CloudProviderConfig × Option String :=
  if env.config.platformName = libvirtName ∨ env.config.platformName = noneName ∨
      env.config.platformName = baremetalName ∨ env.config.platformName = ovirtName then
    (cpc, none)
  else if env.config.platformName = awsName then
    if env.config.AdditionalTrustBundle = "" ∨
        ¬ env.c2sRegions.contains env.config.aws.Region then
      (cpc, none)
    else
      emitTail env cpc [(cloudProviderConfigCABundleDataKey, env.config.AdditionalTrustBundle)]
  else if env.config.platformName = openstackName then
    match env.openstackGen with
    | .error e => (cpc, some (wrap "failed to generate OpenStack provider config" e))
    | .ok cfgAndCA =>
      if cfgAndCA.snd ≠ "" then
        emitTail env cpc [(cloudProviderConfigDataKey, cfgAndCA.fst),
                          (cloudProviderConfigCABundleDataKey, cfgAndCA.snd)]
      else
        emitTail env cpc [(cloudProviderConfigDataKey, cfgAndCA.fst)]
  else if env.config.platformName = azureName then
    match env.azureSession with
    | .error e => (cpc, some (wrap "could not get azure session" e))
    | .ok session =>
      match env.azureJSONfn (azurePayload env session) with
      | .error e => (cpc, some (wrap "could not create cloud provider config" e))
      | .ok azureConfig =>
        if env.azureMetadataCloudName = azuretypesStackCloud then
          match env.jsonMarshalEnv session.Environment with
          | .error e => (cpc, some (wrap "could not serialize Azure Stack endpoints" e))
          | .ok b =>
            emitTail env cpc [(cloudProviderConfigDataKey, azureConfig),
                              (cloudProviderEndpointsKey, b)]
        else
          emitTail env cpc [(cloudProviderConfigDataKey, azureConfig)]
  else if env.config.platformName = gcpName then
    match env.gcpCPCfn env.infraID env.config.gcp.ProjectID
        (if env.config.gcp.ComputeSubnet ≠ "" then env.config.gcp.ComputeSubnet
         else env.infraID ++ "-worker-subnet") with
    | .error e => (cpc, some (wrap "could not create cloud provider config" e))
    | .ok gcpConfig => emitTail env cpc [(cloudProviderConfigDataKey, gcpConfig)]
  else if env.config.platformName = ibmcloudName then
    match env.ibmAccountID with
    | .error e => (cpc, some e)
    | .ok accountID =>
      match env.ibmCPCfn env.infraID accountID env.config.ibmcloud.Region with
      | .error e => (cpc, some (wrap "could not create cloud provider config" e))
      | .ok ibmcloudConfig => emitTail env cpc [(cloudProviderConfigDataKey, ibmcloudConfig)]
  else if env.config.platformName = vsphereName then
    match env.vsphereCPCfn
        (if env.config.vsphere.Folder.length = 0 then
          "/" ++ env.config.vsphere.Datacenter ++ "/vm/" ++ env.infraID
         else env.config.vsphere.Folder)
        env.config.vsphere with
    | .error e => (cpc, some (wrap "could not create cloud provider config" e))
    | .ok vsphereConfig => emitTail env cpc [(cloudProviderConfigDataKey, vsphereConfig)]
  else if env.config.platformName = kubevirtName then
    match env.kubevirtJSONfn env.config.kubevirt.Namespace env.infraID with
    | .error e => (cpc, some (wrap "could not create cloud provider config" e))
    | .ok kubevirtConfig => emitTail env cpc [(cloudProviderConfigDataKey, kubevirtConfig)]
  else
    (cpc, some "invalid Platform")

/-- Files (source lines 219-224): zero or one entries. -/
def files (cpc : CloudProviderConfig) : List File :=
  match cpc.File with
  | some f => [f]
  | none => []

/-- Load (source lines 227-229): always reports not found, no error. -/
def load (_ : CloudProviderConfig) : Bool × Option String := (false, none)

/-! Concrete sample inputs used to exercise the definitions. -/

def sampleCredentials : Credentials :=
  { SubscriptionID := "sub-1", TenantID := "ten-1", ClientID := "cli-1",
    ClientSecret := "sec-1" }

def sampleSession : Session :=
  { Credentials := sampleCredentials, Environment := "endpoint-table" }

def sampleAzureConfig : AzureConfig :=
  { CloudName := "AzurePublicCloud", Region := "eastus",
    NetworkResourceGroupName := "", VirtualNetwork := "", ComputeSubnet := "",
    ARMEndpoint := "", IsARO := false,
    ClusterResourceGroupName := fun infraID => infraID ++ "-rg" }

def sampleConfig : InstallConfigData :=
  { platformName := azureName, AdditionalTrustBundle := "",
    aws := { Region := "us-east-1" },
    azure := sampleAzureConfig,
    gcp := { ProjectID := "proj-1", ComputeSubnet := "" },
    ibmcloud := { Region := "us-south" },
    vsphere := { Folder := "", Datacenter := "dc-1" },
    kubevirt := { Namespace := "ns-1" } }

/-- A fully concrete environment whose external collaborators all succeed. -/
def sampleEnv : Env :=
  { config := sampleConfig
    infraID := "abcde"
    azureMetadataCloudName := "AzurePublicCloud"
    azureSession := .ok sampleSession
    azureJSONfn := fun p => .ok ("azure-json[" ++ p.VirtualNetworkName ++ "]")
    openstackGen := .ok ("os-config", "")
    jsonMarshalEnv := fun s => .ok ("json[" ++ s ++ "]")
    gcpCPCfn := fun a b c => .ok ("gcp[" ++ a ++ "," ++ b ++ "," ++ c ++ "]")
    ibmAccountID := .ok "acct-1"
    ibmCPCfn := fun a b c => .ok ("ibm[" ++ a ++ "," ++ b ++ "," ++ c ++ "]")
    vsphereCPCfn := fun p _ => .ok ("vs[" ++ p ++ "]")
    kubevirtJSONfn := fun a b => .ok ("kv[" ++ a ++ "," ++ b ++ "]")
    yamlMarshal := fun cm =>
      .ok ("yaml[" ++ String.intercalate ";" (cm.Data.map (fun kv => kv.fst ++ "=" ++ kv.snd)) ++ "]")
    c2sRegions := ["us-iso-east-1", "us-isob-east-1"] }

/-- A variant of the sample environment with every Azure override set. -/
def sampleEnvOverrides : Env :=
  { sampleEnv with
    config := { sampleConfig with
      azure := { sampleAzureConfig with
        NetworkResourceGroupName := "my-nrg", VirtualNetwork := "my-vnet",
        ComputeSubnet := "my-subnet" } } }

/-- A copy of the sample environment with the given platform name active. -/
def sampleEnvNamed (n : String) : Env :=
  { sampleEnv with config := { sampleConfig with platformName := n } }

/-- Sample environment for the AWS arm: restricted region, trust bundle set. -/
def sampleEnvAWS : Env :=
  { sampleEnv with config := { sampleConfig with
      platformName := awsName, AdditionalTrustBundle := "BUNDLE",
      aws := { Region := "us-iso-east-1" } } }

/-!  Theorems settling the claims. -/

/-- Claim C1: in the Azure arm, the derived names default to
infraID-nsg, infraID-vnet and infraID-worker-subnet, the network resource
group defaults to ClusterResourceGroupName(infraID), and any non-empty
override configured for the virtual network, the compute subnet or the
network resource group appears verbatim in the derived payload instead of
the default (the security-group name has no override field and always
takes its default). -/
theorem azure_derived_names_default_and_override (env : Env) (session : Session) :
    (azurePayload env session).NetworkSecurityGroupName = env.infraID ++ "-nsg" ∧
    (env.config.azure.VirtualNetwork = "" →
      (azurePayload env session).VirtualNetworkName = env.infraID ++ "-vnet") ∧
    (env.config.azure.ComputeSubnet = "" →
      (azurePayload env session).SubnetName = env.infraID ++ "-worker-subnet") ∧
    (env.config.azure.NetworkResourceGroupName = "" →
      (azurePayload env session).NetworkResourceGroupName =
        env.config.azure.ClusterResourceGroupName env.infraID) ∧
    (env.config.azure.VirtualNetwork ≠ "" →
      (azurePayload env session).VirtualNetworkName = env.config.azure.VirtualNetwork) ∧
    (env.config.azure.ComputeSubnet ≠ "" →
      (azurePayload env session).SubnetName = env.config.azure.ComputeSubnet) ∧
    (env.config.azure.NetworkResourceGroupName ≠ "" →
      (azurePayload env session).NetworkResourceGroupName =
        env.config.azure.NetworkResourceGroupName) := by
  unfold azurePayload
  refine ⟨rfl, ?_, ?_, ?_, ?_, ?_, ?_⟩ <;> intro h <;> simp [h]

/-- Concrete instance of claim C1: with cluster id abcde and no overrides the
derived names are the defaults, and with every override set the override
values appear verbatim. -/
theorem azure_derived_names_witness :
    (azurePayload sampleEnv sampleSession).NetworkSecurityGroupName = "abcde-nsg" ∧
    (azurePayload sampleEnv sampleSession).VirtualNetworkName = "abcde-vnet" ∧
    (azurePayload sampleEnv sampleSession).SubnetName = "abcde-worker-subnet" ∧
    (azurePayload sampleEnv sampleSession).NetworkResourceGroupName = "abcde-rg" ∧
    (azurePayload sampleEnvOverrides sampleSession).VirtualNetworkName = "my-vnet" ∧
    (azurePayload sampleEnvOverrides sampleSession).SubnetName = "my-subnet" ∧
    (azurePayload sampleEnvOverrides sampleSession).NetworkResourceGroupName = "my-nrg" := by
  have hd := azure_derived_names_default_and_override sampleEnv sampleSession
  have ho := azure_derived_names_default_and_override sampleEnvOverrides sampleSession
  refine ⟨hd.1, ?_, ?_, ?_, ?_, ?_, ?_⟩
  · exact hd.2.1 rfl
  · exact hd.2.2.1 rfl
  · exact hd.2.2.2.1 rfl
  · exact ho.2.2.2.2.1 (by decide)
  · exact ho.2.2.2.2.2.1 (by decide)
  · exact ho.2.2.2.2.2.2 (by decide)

/-- Claim C10: the ResourceGroupName field of the Azure payload always equals
ClusterResourceGroupName(infraID), even when a non-empty
NetworkResourceGroupName override is configured; the override only moves
the NetworkResourceGroupName field. -/
theorem azure_resource_group_ignores_override (env : Env) (session : Session) :
    (azurePayload env session).ResourceGroupName =
      env.config.azure.ClusterResourceGroupName env.infraID ∧
    (env.config.azure.NetworkResourceGroupName ≠ "" →
      (azurePayload env session).ResourceGroupName =
        env.config.azure.ClusterResourceGroupName env.infraID ∧
      (azurePayload env session).NetworkResourceGroupName =
        env.config.azure.NetworkResourceGroupName) := by
  unfold azurePayload
  exact ⟨rfl, fun h => ⟨rfl, by simp [h]⟩⟩

/-- Concrete instance of claim C10: with the network-resource-group override
set, ResourceGroupName still carries the convention value abcde-rg. -/
theorem azure_resource_group_ignores_override_witness :
    (azurePayload sampleEnvOverrides sampleSession).ResourceGroupName = "abcde-rg" ∧
    (azurePayload sampleEnvOverrides sampleSession).NetworkResourceGroupName = "my-nrg" := by
  have h := azure_resource_group_ignores_override sampleEnvOverrides sampleSession
  exact ⟨h.1, (h.2 (by decide)).2⟩

/-- Claim C5: for each of the no-op platforms (libvirt, none, baremetal,
ovirt), Generate on a fresh asset succeeds leaving the asset untouched,
and Files afterwards is empty. -/
theorem noop_platforms_skip (env : Env)
    (h : env.config.platformName = libvirtName ∨ env.config.platformName = noneName ∨
      env.config.platformName = baremetalName ∨ env.config.platformName = ovirtName) :
    generate env emptyCPC = (emptyCPC, none) ∧
    files (generate env emptyCPC).fst = [] := by
  unfold generate
  rw [if_pos h]
  exact ⟨rfl, rfl⟩

/-- Concrete instances of claim C5 for all four no-op platform names. -/
theorem noop_platforms_skip_witness :
    generate (sampleEnvNamed "libvirt") emptyCPC = (emptyCPC, none) ∧
    generate (sampleEnvNamed "none") emptyCPC = (emptyCPC, none) ∧
    generate (sampleEnvNamed "baremetal") emptyCPC = (emptyCPC, none) ∧
    generate (sampleEnvNamed "ovirt") emptyCPC = (emptyCPC, none) ∧
    files (generate (sampleEnvNamed "libvirt") emptyCPC).fst = [] :=
  ⟨(noop_platforms_skip (sampleEnvNamed "libvirt") (Or.inl rfl)).1,
   (noop_platforms_skip (sampleEnvNamed "none") (Or.inr (Or.inl rfl))).1,
   (noop_platforms_skip (sampleEnvNamed "baremetal") (Or.inr (Or.inr (Or.inl rfl)))).1,
   (noop_platforms_skip (sampleEnvNamed "ovirt") (Or.inr (Or.inr (Or.inr rfl)))).1,
   (noop_platforms_skip (sampleEnvNamed "libvirt") (Or.inl rfl)).2⟩

/-- Claim C4: a platform name outside the recognized set makes Generate
return the invalid Platform error with the asset untouched, so Files on a
fresh asset stays empty. -/
theorem unknown_platform_invalid (env : Env) (cpc : CloudProviderConfig)
    (h : env.config.platformName ∉ recognizedPlatformNames) :
    generate env cpc = (cpc, some "invalid Platform") ∧
    files (generate env emptyCPC).fst = [] := by
  simp only [recognizedPlatformNames, List.mem_cons, List.not_mem_nil, or_false,
    not_or] at h
  obtain ⟨h1, h2, h3, h4, h5, h6, h7, h8, h9, h10, h11⟩ := h
  constructor
  · unfold generate
    simp [h1, h2, h3, h4, h5, h6, h7, h8, h9, h10, h11]
  · unfold generate
    simp [h1, h2, h3, h4, h5, h6, h7, h8, h9, h10, h11, files, emptyCPC]

/-- Concrete instance of claim C4 at the unrecognized platform name foo. -/
theorem unknown_platform_invalid_witness :
    generate (sampleEnvNamed "foo") emptyCPC = (emptyCPC, some "invalid Platform") :=
  (unknown_platform_invalid (sampleEnvNamed "foo") emptyCPC (by decide)).1

/-- Claim C2: the AWS arm skips (success, asset untouched) when the trust
bundle is empty or the region is outside the restricted set; with a
non-empty bundle and a restricted region it emits exactly one file whose
data map is exactly the ca-bundle.pem entry, with no config key. -/
theorem aws_trust_bundle_branch (env : Env) (cmBytes : String) :
    (env.config.platformName = awsName → env.config.AdditionalTrustBundle = "" →
      generate env emptyCPC = (emptyCPC, none)) ∧
    (env.config.platformName = awsName →
      ¬ env.c2sRegions.contains env.config.aws.Region →
      generate env emptyCPC = (emptyCPC, none)) ∧
    (env.config.platformName = awsName → env.config.AdditionalTrustBundle ≠ "" →
      env.c2sRegions.contains env.config.aws.Region →
      env.yamlMarshal (baseConfigMap
        [(cloudProviderConfigCABundleDataKey, env.config.AdditionalTrustBundle)]) =
        .ok cmBytes →
      (generate env emptyCPC).snd = none ∧
      files (generate env emptyCPC).fst =
        [{ Filename := cloudProviderConfigFileName, Data := cmBytes }] ∧
      ∃ cm, (generate env emptyCPC).fst.ConfigMap = some cm ∧
        cm.Data = [(cloudProviderConfigCABundleDataKey, env.config.AdditionalTrustBundle)] ∧
        dataGet cm.Data cloudProviderConfigDataKey = none) := by
  refine ⟨?_, ?_, ?_⟩
  · intro hn hb
    unfold generate
    rw [hn, if_neg (by decide), if_pos (by decide), if_pos (Or.inl hb)]
  · intro hn hr
    unfold generate
    rw [hn, if_neg (by decide), if_pos (by decide), if_pos (Or.inr hr)]
  · intro hn hb hr hy
    unfold generate
    rw [hn, if_neg (by decide), if_pos (by decide),
      if_neg (not_or.mpr ⟨hb, not_not_intro hr⟩)]
    unfold emitTail
    rw [hy]
    refine ⟨rfl, rfl, baseConfigMap _, rfl, rfl, ?_⟩
    simp [dataGet, baseConfigMap, cloudProviderConfigCABundleDataKey,
      cloudProviderConfigDataKey]

/-- Concrete instances of claim C2: skip on empty bundle, skip on an
unrestricted region, and the exact single-entry artifact on a restricted
one. -/
theorem aws_trust_bundle_branch_witness :
    generate (sampleEnvNamed "aws") emptyCPC = (emptyCPC, none) ∧
    generate { sampleEnvAWS with
        config := { sampleEnvAWS.config with aws := { Region := "us-east-1" } } }
      emptyCPC = (emptyCPC, none) ∧
    files (generate sampleEnvAWS emptyCPC).fst =
      [{ Filename := cloudProviderConfigFileName, Data := "yaml[ca-bundle.pem=BUNDLE]" }] := by
  refine ⟨?_, ?_, ?_⟩
  · exact (aws_trust_bundle_branch (sampleEnvNamed "aws") "").1 rfl rfl
  · exact (aws_trust_bundle_branch _ "").2.1 rfl (by decide)
  · exact ((aws_trust_bundle_branch sampleEnvAWS "yaml[ca-bundle.pem=BUNDLE]").2.2
      rfl (by decide) (by decide) rfl).2.1

/-- On any pass, either the asset is left exactly as it was, or the pass
succeeded: every return statement of Generate before the final success
point hands back the untouched receiver. -/
theorem generate_untouched_or_ok (env : Env) (cpc : CloudProviderConfig) :
    (generate env cpc).fst = cpc ∨ (generate env cpc).snd = none := by
  unfold generate emitTail
  repeat' split
  all_goals simp

/-- Claim C3: whenever Generate returns an error, the ConfigMap and File
slots are exactly their prior values: no partial artifact survives a
failing pass. -/
theorem generate_error_leaves_state (env : Env) (cpc : CloudProviderConfig) (e : String)
    (h : (generate env cpc).snd = some e) : (generate env cpc).fst = cpc := by
  rcases generate_untouched_or_ok env cpc with hc | hc
  · exact hc
  · rw [hc] at h
    exact absurd h (by simp)

/-- Concrete instance of claim C3: a failing pass (unknown platform) leaves
a previously populated asset exactly as it was. -/
theorem generate_error_leaves_state_witness :
    (generate (sampleEnvNamed "foo")
      { ConfigMap := some (baseConfigMap [("config", "old")])
        File := some { Filename := "old.yaml", Data := "old" } }).fst =
    { ConfigMap := some (baseConfigMap [("config", "old")])
      File := some { Filename := "old.yaml", Data := "old" } } :=
  generate_error_leaves_state (sampleEnvNamed "foo") _ "invalid Platform" (by decide)

/-- Claim C8: every config map actually stored by Generate on a fresh pass
has a non-empty data map; the empty-data outcomes all return before the
emit step. -/
theorem generated_data_nonempty (env : Env) (cm : ConfigMap)
    (h : (generate env emptyCPC).fst.ConfigMap = some cm) : cm.Data ≠ [] := by
  unfold generate emitTail at h
  repeat' split at h
  all_goals simp [emptyCPC] at h
  all_goals subst h
  all_goals simp [baseConfigMap]

/-- Concrete instance of claim C8: the Azure pass stores a config map, and
its data map is non-empty. -/
theorem generated_data_nonempty_witness :
    (generate sampleEnv emptyCPC).fst.ConfigMap =
      some (baseConfigMap [("config", "azure-json[abcde-vnet]")]) ∧
    (baseConfigMap [("config", "azure-json[abcde-vnet]")]).Data ≠ [] :=
  ⟨rfl, generated_data_nonempty sampleEnv _ rfl⟩

/-- Claim C7: in the Azure arm, the stored data map carries an endpoints key,
holding the serialized session environment, exactly when the session
metadata cloud name equals the Azure Stack marker; otherwise no endpoints
key is present. -/
theorem azure_endpoints_iff_stack (env : Env) (session : Session) (ac b : String) :
    (env.config.platformName = azureName → env.azureSession = .ok session →
      env.azureJSONfn (azurePayload env session) = .ok ac →
      env.azureMetadataCloudName = azuretypesStackCloud →
      env.jsonMarshalEnv session.Environment = .ok b →
      ∀ cm, (generate env emptyCPC).fst.ConfigMap = some cm →
        dataGet cm.Data cloudProviderEndpointsKey = some b) ∧
    (env.config.platformName = azureName → env.azureSession = .ok session →
      env.azureJSONfn (azurePayload env session) = .ok ac →
      env.azureMetadataCloudName ≠ azuretypesStackCloud →
      ∀ cm, (generate env emptyCPC).fst.ConfigMap = some cm →
        dataGet cm.Data cloudProviderEndpointsKey = none) := by
  constructor
  · intro hn hs hj hst hb cm hcm
    unfold generate emitTail at hcm
    rw [hn] at hcm
    simp only [libvirtName, noneName, baremetalName, ovirtName, awsName, openstackName,
      azureName, gcpName, ibmcloudName, vsphereName, kubevirtName] at hcm
    simp [hs, hj, hst, hb] at hcm
    split at hcm
    · simp [emptyCPC] at hcm
    · simp at hcm
      subst hcm
      simp [dataGet, baseConfigMap, cloudProviderEndpointsKey, cloudProviderConfigDataKey]
  · intro hn hs hj hst cm hcm
    unfold generate emitTail at hcm
    rw [hn] at hcm
    simp only [libvirtName, noneName, baremetalName, ovirtName, awsName, openstackName,
      azureName, gcpName, ibmcloudName, vsphereName, kubevirtName] at hcm
    simp [hs, hj, hst] at hcm
    split at hcm
    · simp [emptyCPC] at hcm
    · simp at hcm
      subst hcm
      simp [dataGet, baseConfigMap, cloudProviderEndpointsKey, cloudProviderConfigDataKey]

/-- Concrete instances of claim C7: with the Stack cloud name the endpoints
key holds the serialized environment; with the public cloud name it is
absent. -/
theorem azure_endpoints_iff_stack_witness :
    dataGet (baseConfigMap [("config", "azure-json[abcde-vnet]"),
      ("endpoints", "json[endpoint-table]")]).Data cloudProviderEndpointsKey =
      some "json[endpoint-table]" ∧
    dataGet (baseConfigMap [("config", "azure-json[abcde-vnet]")]).Data
      cloudProviderEndpointsKey = none := by
  constructor
  · exact (azure_endpoints_iff_stack { sampleEnv with
        azureMetadataCloudName := "AzureStackCloud" } sampleSession
        "azure-json[abcde-vnet]" "json[endpoint-table]").1
      rfl rfl rfl rfl rfl _ rfl
  · exact (azure_endpoints_iff_stack sampleEnv sampleSession
        "azure-json[abcde-vnet]" "json[endpoint-table]").2
      rfl rfl rfl (by decide) _ rfl

/-- The shared emit tail depends on the receiver only in its failure return:
its outcome and any stored artifact are functions of the environment and
the data list alone. -/
theorem emitTail_state_parametricity (env : Env) (data : List (String × String))
    (cpc1 cpc2 : CloudProviderConfig) :
    (emitTail env cpc1 data).snd = (emitTail env cpc2 data).snd ∧
    ((emitTail env cpc1 data).fst = cpc1 ∧ (emitTail env cpc2 data).fst = cpc2 ∨
      (emitTail env cpc1 data).fst = (emitTail env cpc2 data).fst) := by
  unfold emitTail
  cases hy : env.yamlMarshal (baseConfigMap data) <;> simp [hy]

theorem generate_state_parametricity (env : Env) (cpc1 cpc2 : CloudProviderConfig) :
    (generate env cpc1).snd = (generate env cpc2).snd ∧
    ((generate env cpc1).fst = cpc1 ∧ (generate env cpc2).fst = cpc2 ∨
      (generate env cpc1).fst = (generate env cpc2).fst) := by
  by_cases h1 : (env.config.platformName = libvirtName ∨ env.config.platformName = noneName ∨
      env.config.platformName = baremetalName ∨ env.config.platformName = ovirtName)
  · simp only [generate, if_pos h1]
    simp
  by_cases h2 : env.config.platformName = awsName
  · by_cases h3 : (env.config.AdditionalTrustBundle = "" ∨
        ¬ env.c2sRegions.contains env.config.aws.Region)
    · simp only [generate, if_neg h1, if_pos h2, if_pos h3]
      simp
    · simp only [generate, if_neg h1, if_pos h2, if_neg h3]
      exact emitTail_state_parametricity env _ cpc1 cpc2
  by_cases h4 : env.config.platformName = openstackName
  · cases hosg : env.openstackGen with
    | error e =>
      simp only [generate, if_neg h1, if_neg h2, if_pos h4, hosg]
      simp
    | ok cfgAndCA =>
      by_cases h5 : cfgAndCA.snd ≠ ""
      · simp only [generate, if_neg h1, if_neg h2, if_pos h4, hosg, if_pos h5]
        exact emitTail_state_parametricity env _ cpc1 cpc2
      · simp only [generate, if_neg h1, if_neg h2, if_pos h4, hosg, if_neg h5]
        exact emitTail_state_parametricity env _ cpc1 cpc2
  by_cases h6 : env.config.platformName = azureName
  · cases hs : env.azureSession with
    | error e =>
      simp only [generate, if_neg h1, if_neg h2, if_neg h4, if_pos h6, hs]
      simp
    | ok session =>
      cases hj : env.azureJSONfn (azurePayload env session) with
      | error e =>
        simp only [generate, if_neg h1, if_neg h2, if_neg h4, if_pos h6, hs, hj]
        simp
      | ok azureConfig =>
        by_cases hst : env.azureMetadataCloudName = azuretypesStackCloud
        · cases hb : env.jsonMarshalEnv session.Environment with
          | error e =>
            simp only [generate, if_neg h1, if_neg h2, if_neg h4, if_pos h6, hs, hj,
              if_pos hst, hb]
            simp
          | ok b =>
            simp only [generate, if_neg h1, if_neg h2, if_neg h4, if_pos h6, hs, hj,
              if_pos hst, hb]
            exact emitTail_state_parametricity env _ cpc1 cpc2
        · simp only [generate, if_neg h1, if_neg h2, if_neg h4, if_pos h6, hs, hj,
            if_neg hst]
          exact emitTail_state_parametricity env _ cpc1 cpc2
  by_cases h7 : env.config.platformName = gcpName
  · cases hg : env.gcpCPCfn env.infraID env.config.gcp.ProjectID
        (if env.config.gcp.ComputeSubnet ≠ "" then env.config.gcp.ComputeSubnet
         else env.infraID ++ "-worker-subnet") with
    | error e =>
      simp only [generate, if_neg h1, if_neg h2, if_neg h4, if_neg h6, if_pos h7, hg]
      simp
    | ok gcpConfig =>
      simp only [generate, if_neg h1, if_neg h2, if_neg h4, if_neg h6, if_pos h7, hg]
      exact emitTail_state_parametricity env _ cpc1 cpc2
  by_cases h8 : env.config.platformName = ibmcloudName
  · cases ha : env.ibmAccountID with
    | error e =>
      simp only [generate, if_neg h1, if_neg h2, if_neg h4, if_neg h6, if_neg h7,
        if_pos h8, ha]
      simp
    | ok accountID =>
      cases hi : env.ibmCPCfn env.infraID accountID env.config.ibmcloud.Region with
      | error e =>
        simp only [generate, if_neg h1, if_neg h2, if_neg h4, if_neg h6, if_neg h7,
          if_pos h8, ha, hi]
        simp
      | ok ibmcloudConfig =>
        simp only [generate, if_neg h1, if_neg h2, if_neg h4, if_neg h6, if_neg h7,
          if_pos h8, ha, hi]
        exact emitTail_state_parametricity env _ cpc1 cpc2
  by_cases h9 : env.config.platformName = vsphereName
  · cases hv : env.vsphereCPCfn
        (if env.config.vsphere.Folder.length = 0 then
          "/" ++ env.config.vsphere.Datacenter ++ "/vm/" ++ env.infraID
         else env.config.vsphere.Folder) env.config.vsphere with
    | error e =>
      simp only [generate, if_neg h1, if_neg h2, if_neg h4, if_neg h6, if_neg h7,
        if_neg h8, if_pos h9, hv]
      simp
    | ok vsphereConfig =>
      simp only [generate, if_neg h1, if_neg h2, if_neg h4, if_neg h6, if_neg h7,
        if_neg h8, if_pos h9, hv]
      exact emitTail_state_parametricity env _ cpc1 cpc2
  by_cases h10 : env.config.platformName = kubevirtName
  · cases hk : env.kubevirtJSONfn env.config.kubevirt.Namespace env.infraID with
    | error e =>
      simp only [generate, if_neg h1, if_neg h2, if_neg h4, if_neg h6, if_neg h7,
        if_neg h8, if_neg h9, if_pos h10, hk]
      simp
    | ok kubevirtConfig =>
      simp only [generate, if_neg h1, if_neg h2, if_neg h4, if_neg h6, if_neg h7,
        if_neg h8, if_neg h9, if_pos h10, hk]
      exact emitTail_state_parametricity env _ cpc1 cpc2
  · simp only [generate, if_neg h1, if_neg h2, if_neg h4, if_neg h6, if_neg h7,
      if_neg h8, if_neg h9, if_neg h10]
    simp

/-- Claim C9: with identical resolved inputs and identical external lookup
results, a successful pass followed by a second pass yields success again
and a byte-identical file slot (same filename, same contents). -/
theorem generate_deterministic (env : Env)
    (h : (generate env emptyCPC).snd = none) :
    (generate env (generate env emptyCPC).fst).snd = none ∧
    (generate env (generate env emptyCPC).fst).fst.File =
      (generate env emptyCPC).fst.File := by
  have hp := generate_state_parametricity env (generate env emptyCPC).fst emptyCPC
  constructor
  · rw [hp.1, h]
  · rcases hp.2 with ⟨h1, _⟩ | h1
    · rw [h1]
    · rw [h1]

/-- Concrete instance of claim C9: on the Azure sample inputs, the second
pass succeeds and reproduces the file of the first byte for byte. -/
theorem generate_deterministic_witness :
    (generate sampleEnv (generate sampleEnv emptyCPC).fst).snd = none ∧
    (generate sampleEnv (generate sampleEnv emptyCPC).fst).fst.File =
      (generate sampleEnv emptyCPC).fst.File :=
  generate_deterministic sampleEnv rfl

/-- Claim C6: the IBM Cloud account-ID lookup is the one failure returned
raw, while every other external lookup, delegate, or serialization
failure is returned wrapped with its step-identifying message. -/
theorem error_wrapping_policy (env : Env) (cpc : CloudProviderConfig) (e : String) :
    (env.config.platformName = ibmcloudName → env.ibmAccountID = .error e →
      generate env cpc = (cpc, some e)) ∧
    (env.config.platformName = openstackName → env.openstackGen = .error e →
      generate env cpc = (cpc, some (wrap "failed to generate OpenStack provider config" e))) ∧
    (env.config.platformName = azureName → env.azureSession = .error e →
      generate env cpc = (cpc, some (wrap "could not get azure session" e))) ∧
    (∀ session, env.config.platformName = azureName → env.azureSession = .ok session →
      env.azureJSONfn (azurePayload env session) = .error e →
      generate env cpc = (cpc, some (wrap "could not create cloud provider config" e))) ∧
    (∀ session ac, env.config.platformName = azureName → env.azureSession = .ok session →
      env.azureJSONfn (azurePayload env session) = .ok ac →
      env.azureMetadataCloudName = azuretypesStackCloud →
      env.jsonMarshalEnv session.Environment = .error e →
      generate env cpc = (cpc, some (wrap "could not serialize Azure Stack endpoints" e))) ∧
    (env.config.platformName = gcpName →
      env.gcpCPCfn env.infraID env.config.gcp.ProjectID
        (if env.config.gcp.ComputeSubnet ≠ "" then env.config.gcp.ComputeSubnet
         else env.infraID ++ "-worker-subnet") = .error e →
      generate env cpc = (cpc, some (wrap "could not create cloud provider config" e))) ∧
    (∀ accountID, env.config.platformName = ibmcloudName →
      env.ibmAccountID = .ok accountID →
      env.ibmCPCfn env.infraID accountID env.config.ibmcloud.Region = .error e →
      generate env cpc = (cpc, some (wrap "could not create cloud provider config" e))) ∧
    (env.config.platformName = vsphereName →
      env.vsphereCPCfn
        (if env.config.vsphere.Folder.length = 0 then
          "/" ++ env.config.vsphere.Datacenter ++ "/vm/" ++ env.infraID
         else env.config.vsphere.Folder) env.config.vsphere = .error e →
      generate env cpc = (cpc, some (wrap "could not create cloud provider config" e))) ∧
    (env.config.platformName = kubevirtName →
      env.kubevirtJSONfn env.config.kubevirt.Namespace env.infraID = .error e →
      generate env cpc = (cpc, some (wrap "could not create cloud provider config" e))) ∧
    (∀ data, env.yamlMarshal (baseConfigMap data) = .error e →
      emitTail env cpc data =
        (cpc, some (wrap "failed to create Cloud Provider Config manifest" e))) := by
  refine ⟨?_, ?_, ?_, ?_, ?_, ?_, ?_, ?_, ?_, ?_⟩
  · intro hn ha
    unfold generate
    rw [hn]
    simp [libvirtName, noneName, baremetalName, ovirtName, awsName, openstackName,
      azureName, gcpName, ibmcloudName, vsphereName, kubevirtName, ha]
  · intro hn ha
    unfold generate
    rw [hn]
    simp [libvirtName, noneName, baremetalName, ovirtName, awsName, openstackName,
      azureName, gcpName, ibmcloudName, vsphereName, kubevirtName, ha]
  · intro hn ha
    unfold generate
    rw [hn]
    simp [libvirtName, noneName, baremetalName, ovirtName, awsName, openstackName,
      azureName, gcpName, ibmcloudName, vsphereName, kubevirtName, ha]
  · intro session hn hs ha
    unfold generate
    rw [hn]
    simp [libvirtName, noneName, baremetalName, ovirtName, awsName, openstackName,
      azureName, gcpName, ibmcloudName, vsphereName, kubevirtName, hs, ha]
  · intro session ac hn hs hj hst ha
    unfold generate
    rw [hn]
    simp [libvirtName, noneName, baremetalName, ovirtName, awsName, openstackName,
      azureName, gcpName, ibmcloudName, vsphereName, kubevirtName, hs, hj, hst, ha]
  · intro hn ha
    unfold generate
    rw [hn]
    simp only [ne_eq, ite_not] at ha
    simp [libvirtName, noneName, baremetalName, ovirtName, awsName, openstackName,
      azureName, gcpName, ibmcloudName, vsphereName, kubevirtName, ha]
  · intro accountID hn hk ha
    unfold generate
    rw [hn]
    simp [libvirtName, noneName, baremetalName, ovirtName, awsName, openstackName,
      azureName, gcpName, ibmcloudName, vsphereName, kubevirtName, hk, ha]
  · intro hn ha
    unfold generate
    rw [hn]
    simp [libvirtName, noneName, baremetalName, ovirtName, awsName, openstackName,
      azureName, gcpName, ibmcloudName, vsphereName, kubevirtName, ha]
  · intro hn ha
    unfold generate
    rw [hn]
    simp [libvirtName, noneName, baremetalName, ovirtName, awsName, openstackName,
      azureName, gcpName, ibmcloudName, vsphereName, kubevirtName, ha]
  · intro data ha
    unfold emitTail
    rw [ha]

/-- Concrete instances of claim C6: a failing account lookup surfaces its
raw message, while a failing OpenStack delegate surfaces the wrapped one. -/
theorem error_wrapping_policy_witness :
    generate { sampleEnvNamed "ibmcloud" with ibmAccountID := .error "boom" }
      emptyCPC = (emptyCPC, some "boom") ∧
    generate { sampleEnvNamed "openstack" with openstackGen := .error "oops" }
      emptyCPC =
      (emptyCPC, some "failed to generate OpenStack provider config: oops") :=
  ⟨(error_wrapping_policy { sampleEnvNamed "ibmcloud" with ibmAccountID := .error "boom" }
      emptyCPC "boom").1 rfl rfl,
   (error_wrapping_policy { sampleEnvNamed "openstack" with openstackGen := .error "oops" }
      emptyCPC "oops").2.1 rfl rfl⟩

end CloudProviderCfg
